import Mathlib

/-!
Verification of the relational data model of the `profiles_api` Django app.

The repository's schema is declared in
`profiles_api/migrations/0002_invoice_invoiceitem_product_profilefeeditem.py`:
four tables (Product, ProfileFeedItem, InvoiceItem, Invoice) together with the
pre-existing UserProfile table (the project's AUTH_USER_MODEL).  Field shapes,
maximum lengths, defaults, foreign-key targets and the on_delete=CASCADE
markers below are transcribed from that migration:

* Product: id (AutoField), name (CharField max_length=50),
  price (FloatField default=0), quantity (FloatField default=0); no FK.
* ProfileFeedItem: id (AutoField), status_text (CharField max_length=255),
  created_on (DateTimeField auto_now_add=True),
  user_profile (ForeignKey to AUTH_USER_MODEL, on_delete=CASCADE).
* InvoiceItem: id (AutoField), quantity/price/total (FloatField default=0),
  product (ForeignKey to profiles_api.ProfileFeedItem, on_delete=CASCADE) —
  note the target really is ProfileFeedItem, not Product.
* Invoice: id (AutoField), date (DateTimeField auto_now_add=True),
  client (ForeignKey to AUTH_USER_MODEL, on_delete=CASCADE).

The generic CRUD operations themselves are supplied by the Django ORM (the
repository's own `models.py` is not part of the sources); their behaviour is
modelled from the spec, section 4.1.  FloatField values are modelled with an
exact numeric type: no claim performs floating-point arithmetic, only storage,
defaulting to 0 and equality of stored values are exercised.  DateTimeField
values are modelled as an abstract tick (Nat) supplied by the caller's clock.
-/

/-- A row of the UserProfile table (AUTH_USER_MODEL).  Its non-key attributes
belong to the external auth collaborator and are out of scope, so a row is
represented by its primary key alone. -/
abbrev UserProfileId := Nat

/-- A row of the ProfileFeedItem table, fields as in the migration. -/
structure FeedItemRow where
  id : Nat
  status_text : String
  created_on : Nat
  user_profile : UserProfileId
deriving DecidableEq

/-- A row of the Product table, fields as in the migration. -/
structure ProductRow where
  id : Nat
  name : String
  price : Int
  quantity : Int
deriving DecidableEq

/-- A row of the InvoiceItem table, fields as in the migration.  The `product`
column is a foreign key whose declared target is the ProfileFeedItem table. -/
structure InvoiceItemRow where
  id : Nat
  quantity : Int
  price : Int
  total : Int
  product : Nat
deriving DecidableEq

/-- A row of the Invoice table, fields as in the migration. -/
structure InvoiceRow where
  id : Nat
  date : Nat
  client : UserProfileId
deriving DecidableEq

/-- The database state: one list of rows per table, plus the auto-increment
sequence of each table's AutoField primary key. -/
structure DB where
  userProfiles : List UserProfileId
  products : List ProductRow
  feedItems : List FeedItemRow
  invoiceItems : List InvoiceItemRow
  invoices : List InvoiceRow
  userSeq : Nat
  productSeq : Nat
  feedSeq : Nat
  invoiceItemSeq : Nat
  invoiceSeq : Nat
deriving DecidableEq

/-- The freshly migrated database: every table empty. -/
def emptyDB : DB := ⟨[], [], [], [], [], 0, 0, 0, 0, 0⟩

/-- Error kinds of the storage layer, as enumerated in the spec, section 7. -/
inductive DbError where
  | constraintError
  | notFoundError
  | validationError
deriving DecidableEq

/-- Modelled from the spec: Create for the UserProfile table (the auth
collaborator's insert).  Auth attributes are out of scope, so it only assigns
the fresh primary key. -/
def createUserProfile (db : DB) : DB × UserProfileId :=
  ({ db with userProfiles := db.userProfiles ++ [db.userSeq],
             userSeq := db.userSeq + 1 }, db.userSeq)

/-- Modelled from the spec: Create(record) for the Product table.  The primary
key is auto-assigned from the table's sequence; `price` and `quantity` default
to 0 when not specified; a `name` over the declared max_length of 50 fails
with ValidationError.  Product has no foreign key, so no ConstraintError. -/
def createProduct (db : DB) (name : String) (price quantity : Option Int) :
    Except DbError (DB × Nat) :=
  if 50 < name.length then .error .validationError
  else .ok ({ db with
    products := db.products ++ [⟨db.productSeq, name, price.getD 0, quantity.getD 0⟩],
    productSeq := db.productSeq + 1 }, db.productSeq)

/-- Modelled from the spec: Create(record) for the ProfileFeedItem table.
Field validation (the declared max_length of 255 on `status_text`) happens
first, as in the framework's form layer; the foreign-key constraint on
`user_profile` is checked at commit time and fails with ConstraintError when
the referenced UserProfile row does not exist.  `created_on` is auto-populated
from the caller's clock (auto_now_add). -/
def createFeedItem (db : DB) (status_text : String) (user_profile : UserProfileId)
    (now : Nat) : Except DbError (DB × Nat) :=
  if 255 < status_text.length then .error .validationError
  else if user_profile ∈ db.userProfiles then
    .ok ({ db with
      feedItems := db.feedItems ++ [⟨db.feedSeq, status_text, now, user_profile⟩],
      feedSeq := db.feedSeq + 1 }, db.feedSeq)
  else .error .constraintError

/-- Modelled from the spec: Create(record) for the InvoiceItem table.
`quantity`, `price` and `total` default to 0 when not specified; the `product`
foreign key is checked against the ProfileFeedItem table — the target declared
in the migration — and a dangling reference fails with ConstraintError. -/
def createInvoiceItem (db : DB) (quantity price total : Option Int)
    (product : Nat) : Except DbError (DB × Nat) :=
  if ∃ f ∈ db.feedItems, f.id = product then
    .ok ({ db with
      invoiceItems := db.invoiceItems ++
        [⟨db.invoiceItemSeq, quantity.getD 0, price.getD 0, total.getD 0, product⟩],
      invoiceItemSeq := db.invoiceItemSeq + 1 }, db.invoiceItemSeq)
  else .error .constraintError

/-- Modelled from the spec: Create(record) for the Invoice table.  The
`client` foreign key is checked against the UserProfile table; `date` is
auto-populated from the caller's clock (auto_now_add). -/
def createInvoice (db : DB) (client : UserProfileId) (now : Nat) :
    Except DbError (DB × Nat) :=
  if client ∈ db.userProfiles then
    .ok ({ db with
      invoices := db.invoices ++ [⟨db.invoiceSeq, now, client⟩],
      invoiceSeq := db.invoiceSeq + 1 }, db.invoiceSeq)
  else .error .constraintError

/-- Does an optional new string value exceed the declared max_length? -/
def overLimit (limit : Nat) : Option String → Prop
  | none => False
  | some s => limit < s.length

instance (limit : Nat) (s : Option String) : Decidable (overLimit limit s) := by
  cases s <;> simp [overLimit] <;> infer_instance

/-- Does an optional new foreign-key value reference an existing UserProfile? -/
def userFkOk (l : List UserProfileId) : Option UserProfileId → Prop
  | none => True
  | some u => u ∈ l

instance (l : List UserProfileId) (u : Option UserProfileId) :
    Decidable (userFkOk l u) := by
  cases u <;> simp [userFkOk] <;> infer_instance

/-- Does an optional new `product` foreign-key value reference an existing
ProfileFeedItem row? -/
def productFkOk (fs : List FeedItemRow) : Option Nat → Prop
  | none => True
  | some p => ∃ f ∈ fs, f.id = p

instance (fs : List FeedItemRow) (p : Option Nat) :
    Decidable (productFkOk fs p) := by
  cases p <;> simp [productFkOk] <;> infer_instance

/-- Modelled from the spec: Update(id, fields) for the Product table.  Mutates
the non-key fields that are supplied; NotFoundError when the id is absent;
ValidationError when a supplied `name` exceeds max_length 50. -/
def updateProduct (db : DB) (id : Nat) (name : Option String)
    (price quantity : Option Int) : Except DbError DB :=
  if ∃ p ∈ db.products, p.id = id then
    if overLimit 50 name then .error .validationError
    else .ok { db with products := db.products.map fun p =>
      if p.id = id then
        { p with name := name.getD p.name, price := price.getD p.price,
                 quantity := quantity.getD p.quantity }
      else p }
  else .error .notFoundError

/-- Modelled from the spec: Update(id, fields) for the ProfileFeedItem table.
Only the non-key, editable fields `status_text` and `user_profile` can be
supplied; `created_on` is auto_now_add and is never part of an update. -/
def updateFeedItem (db : DB) (id : Nat) (status_text : Option String)
    (user_profile : Option UserProfileId) : Except DbError DB :=
  if ∃ f ∈ db.feedItems, f.id = id then
    if overLimit 255 status_text then .error .validationError
    else if userFkOk db.userProfiles user_profile then
      .ok { db with feedItems := db.feedItems.map fun f =>
        if f.id = id then
          { f with status_text := status_text.getD f.status_text,
                   user_profile := user_profile.getD f.user_profile }
        else f }
    else .error .constraintError
  else .error .notFoundError

/-- Modelled from the spec: Update(id, fields) for the InvoiceItem table. -/
def updateInvoiceItem (db : DB) (id : Nat) (quantity price total : Option Int)
    (product : Option Nat) : Except DbError DB :=
  if ∃ it ∈ db.invoiceItems, it.id = id then
    if productFkOk db.feedItems product then
      .ok { db with invoiceItems := db.invoiceItems.map fun it =>
        if it.id = id then
          { it with quantity := quantity.getD it.quantity,
                    price := price.getD it.price, total := total.getD it.total,
                    product := product.getD it.product }
        else it }
    else .error .constraintError
  else .error .notFoundError

/-- Modelled from the spec: Update(id, fields) for the Invoice table.  Only
the `client` foreign key is editable; `date` is auto_now_add and is never part
of an update. -/
def updateInvoice (db : DB) (id : Nat) (client : Option UserProfileId) :
    Except DbError DB :=
  if ∃ v ∈ db.invoices, v.id = id then
    if userFkOk db.userProfiles client then
      .ok { db with invoices := db.invoices.map fun v =>
        if v.id = id then { v with client := client.getD v.client } else v }
    else .error .constraintError
  else .error .notFoundError

/-- Modelled from the spec: Delete(id) for the UserProfile table.  Removes the
row and, per the on_delete=CASCADE declarations of the migration, every
ProfileFeedItem whose `user_profile` references it, every Invoice whose
`client` references it, and — transitively — every InvoiceItem whose `product`
references one of the removed ProfileFeedItem rows. -/
def deleteUserProfile (db : DB) (u : UserProfileId) : Except DbError DB :=
  if u ∈ db.userProfiles then
    .ok { db with
      userProfiles := db.userProfiles.filter fun x => x != u,
      feedItems := db.feedItems.filter fun f => f.user_profile != u,
      invoices := db.invoices.filter fun v => v.client != u,
      invoiceItems := db.invoiceItems.filter fun it =>
        !(db.feedItems.any fun f => f.id == it.product && f.user_profile == u) }
  else .error .notFoundError

/-- Modelled from the spec: Delete(id) for the ProfileFeedItem table.  Removes
the row and, per cascade, every InvoiceItem whose `product` foreign key
references it. -/
def deleteFeedItem (db : DB) (i : Nat) : Except DbError DB :=
  if ∃ f ∈ db.feedItems, f.id = i then
    .ok { db with
      feedItems := db.feedItems.filter fun f => f.id != i,
      invoiceItems := db.invoiceItems.filter fun it => it.product != i }
  else .error .notFoundError

/-- Modelled from the spec: Delete(id) for the Product table.  No foreign key
targets Product in the migration's schema, so nothing cascades. -/
def deleteProduct (db : DB) (i : Nat) : Except DbError DB :=
  if ∃ p ∈ db.products, p.id = i then
    .ok { db with products := db.products.filter fun p => p.id != i }
  else .error .notFoundError

/-- Modelled from the spec: Delete(id) for the InvoiceItem table.  No foreign
key targets InvoiceItem, so nothing cascades. -/
def deleteInvoiceItem (db : DB) (i : Nat) : Except DbError DB :=
  if ∃ it ∈ db.invoiceItems, it.id = i then
    .ok { db with invoiceItems := db.invoiceItems.filter fun it => it.id != i }
  else .error .notFoundError

/-- Modelled from the spec: Delete(id) for the Invoice table.  No foreign key
targets Invoice (in this schema InvoiceItem references ProfileFeedItem, not
Invoice), so nothing cascades. -/
def deleteInvoice (db : DB) (i : Nat) : Except DbError DB :=
  if ∃ v ∈ db.invoices, v.id = i then
    .ok { db with invoices := db.invoices.filter fun v => v.id != i }
  else .error .notFoundError

/-- Referential integrity: every foreign key references an existing row.
`ProfileFeedItem.user_profile` and `Invoice.client` must reference UserProfile
rows, `InvoiceItem.product` must reference a ProfileFeedItem row (the target
declared in the migration). -/
def WF (db : DB) : Prop :=
  (∀ f ∈ db.feedItems, f.user_profile ∈ db.userProfiles) ∧
  (∀ it ∈ db.invoiceItems, ∃ f ∈ db.feedItems, f.id = it.product) ∧
  (∀ v ∈ db.invoices, v.client ∈ db.userProfiles)

/-- The database states reachable from the freshly migrated (empty) database
by the generic CRUD operations. -/
inductive Reachable : DB → Prop where
  | empty : Reachable emptyDB
  | newUserProfile (db : DB) :
      Reachable db → Reachable (createUserProfile db).1
  | newProduct (db db' : DB) (i : Nat) (n : String) (p q : Option Int) :
      Reachable db → createProduct db n p q = .ok (db', i) → Reachable db'
  | newFeedItem (db db' : DB) (i : Nat) (s : String) (u t : Nat) :
      Reachable db → createFeedItem db s u t = .ok (db', i) → Reachable db'
  | newInvoiceItem (db db' : DB) (i : Nat) (q p tt : Option Int) (pr : Nat) :
      Reachable db → createInvoiceItem db q p tt pr = .ok (db', i) → Reachable db'
  | newInvoice (db db' : DB) (i : Nat) (c t : Nat) :
      Reachable db → createInvoice db c t = .ok (db', i) → Reachable db'
  | editProduct (db db' : DB) (i : Nat) (n : Option String) (p q : Option Int) :
      Reachable db → updateProduct db i n p q = .ok db' → Reachable db'
  | editFeedItem (db db' : DB) (i : Nat) (s : Option String) (u : Option Nat) :
      Reachable db → updateFeedItem db i s u = .ok db' → Reachable db'
  | editInvoiceItem (db db' : DB) (i : Nat) (q p tt : Option Int) (pr : Option Nat) :
      Reachable db → updateInvoiceItem db i q p tt pr = .ok db' → Reachable db'
  | editInvoice (db db' : DB) (i : Nat) (c : Option Nat) :
      Reachable db → updateInvoice db i c = .ok db' → Reachable db'
  | dropUserProfile (db db' : DB) (u : Nat) :
      Reachable db → deleteUserProfile db u = .ok db' → Reachable db'
  | dropFeedItem (db db' : DB) (i : Nat) :
      Reachable db → deleteFeedItem db i = .ok db' → Reachable db'
  | dropProduct (db db' : DB) (i : Nat) :
      Reachable db → deleteProduct db i = .ok db' → Reachable db'
  | dropInvoiceItem (db db' : DB) (i : Nat) :
      Reachable db → deleteInvoiceItem db i = .ok db' → Reachable db'
  | dropInvoice (db db' : DB) (i : Nat) :
      Reachable db → deleteInvoice db i = .ok db' → Reachable db'

/-- A status text of 256 characters, one over the declared max_length. -/
def longText : String := String.mk (List.replicate 256 'a')

/-- Example state: one UserProfile (id 0). -/
def exDB0 : DB := ⟨[0], [], [], [], [], 1, 0, 0, 0, 0⟩

/-- Example state: one UserProfile and one ProfileFeedItem (id 0, owner 0). -/
def exDB1 : DB := ⟨[0], [], [⟨0, "hi", 5, 0⟩], [], [], 1, 0, 1, 0, 0⟩

/-- Example state: adds an InvoiceItem (id 0) referencing feed item 0. -/
def exDB2 : DB :=
  ⟨[0], [], [⟨0, "hi", 5, 0⟩], [⟨0, 0, 0, 0, 0⟩], [], 1, 0, 1, 1, 0⟩

/-- Example state: adds an Invoice (id 0) whose client is UserProfile 0. -/
def exDB3 : DB :=
  ⟨[0], [], [⟨0, "hi", 5, 0⟩], [⟨0, 0, 0, 0, 0⟩], [⟨0, 7, 0⟩], 1, 0, 1, 1, 1⟩

/-- `exDB1` after deleting UserProfile 0 (the feed item cascades away). -/
def exDB1del : DB := ⟨[], [], [], [], [], 1, 0, 1, 0, 0⟩

/-- `exDB2` after deleting ProfileFeedItem 0 (the invoice item cascades). -/
def exDB2fdel : DB := ⟨[0], [], [], [], [], 1, 0, 1, 1, 0⟩

/-- `exDB3` after deleting UserProfile 0 (everything cascades away). -/
def exDB3del : DB := ⟨[], [], [], [], [], 1, 0, 1, 1, 1⟩

/-- `exDB1` after updating feed item 0's `status_text` to "yo". -/
def exDB1up : DB := ⟨[0], [], [⟨0, "yo", 5, 0⟩], [], [], 1, 0, 1, 0, 0⟩

/-- Example state: one Product (id 0), created with default price/quantity. -/
def dbP1 : DB := ⟨[], [⟨0, "a", 0, 0⟩], [], [], [], 0, 1, 0, 0, 0⟩

/-- `dbP1` after creating a second Product (id 1). -/
def dbP2 : DB := ⟨[], [⟨0, "a", 0, 0⟩, ⟨1, "b", 0, 0⟩], [], [], [], 0, 2, 0, 0, 0⟩

/-- `dbP1` after deleting Product 0. -/
def dbP1del : DB := ⟨[], [], [], [], [], 0, 1, 0, 0, 0⟩

theorem wf_emptyDB : WF emptyDB := by
  refine ⟨?_, ?_, ?_⟩ <;> intro x hx <;> simp [emptyDB] at hx

theorem wf_createUserProfile {db : DB} (hwf : WF db) :
    WF (createUserProfile db).1 := by
  obtain ⟨h1, h2, h3⟩ := hwf
  refine ⟨fun f hf => ?_, h2, fun v hv => ?_⟩
  · simp only [createUserProfile, List.mem_append]
    exact Or.inl (h1 f hf)
  · simp only [createUserProfile, List.mem_append]
    exact Or.inl (h3 v hv)

theorem wf_createProduct {db db' : DB} {n : String} {p q : Option Int} {i : Nat}
    (hwf : WF db) (h : createProduct db n p q = .ok (db', i)) : WF db' := by
  unfold createProduct at h
  split at h
  · exact Except.noConfusion h
  · simp only [Except.ok.injEq, Prod.mk.injEq] at h
    obtain ⟨rfl, rfl⟩ := h
    exact hwf

theorem wf_createFeedItem {db db' : DB} {s : String} {u t i : Nat}
    (hwf : WF db) (h : createFeedItem db s u t = .ok (db', i)) : WF db' := by
  obtain ⟨h1, h2, h3⟩ := hwf
  unfold createFeedItem at h
  split at h
  · exact Except.noConfusion h
  · split at h
    · simp only [Except.ok.injEq, Prod.mk.injEq] at h
      obtain ⟨rfl, rfl⟩ := h
      rename_i hu
      refine ⟨fun f hf => ?_, fun it hit => ?_, h3⟩
      · rcases List.mem_append.mp hf with hf | hf
        · exact h1 f hf
        · simp at hf
          subst hf
          exact hu
      · obtain ⟨f, hfm, hfe⟩ := h2 it hit
        exact ⟨f, List.mem_append_left _ hfm, hfe⟩
    · exact Except.noConfusion h

theorem wf_createInvoiceItem {db db' : DB} {q p tt : Option Int} {pr i : Nat}
    (hwf : WF db) (h : createInvoiceItem db q p tt pr = .ok (db', i)) : WF db' := by
  obtain ⟨h1, h2, h3⟩ := hwf
  unfold createInvoiceItem at h
  split at h
  · simp only [Except.ok.injEq, Prod.mk.injEq] at h
    obtain ⟨rfl, rfl⟩ := h
    rename_i hex
    refine ⟨h1, fun it hit => ?_, h3⟩
    rcases List.mem_append.mp hit with hit | hit
    · exact h2 it hit
    · simp at hit
      subst hit
      exact hex
  · exact Except.noConfusion h

theorem wf_createInvoice {db db' : DB} {c t i : Nat}
    (hwf : WF db) (h : createInvoice db c t = .ok (db', i)) : WF db' := by
  obtain ⟨h1, h2, h3⟩ := hwf
  unfold createInvoice at h
  split at h
  · simp only [Except.ok.injEq, Prod.mk.injEq] at h
    obtain ⟨rfl, rfl⟩ := h
    rename_i hc
    refine ⟨h1, h2, fun v hv => ?_⟩
    rcases List.mem_append.mp hv with hv | hv
    · exact h3 v hv
    · simp at hv
      subst hv
      exact hc
  · exact Except.noConfusion h

theorem wf_updateProduct {db db' : DB} {i : Nat} {n : Option String}
    {p q : Option Int} (hwf : WF db) (h : updateProduct db i n p q = .ok db') :
    WF db' := by
  unfold updateProduct at h
  split at h
  · split at h
    · exact Except.noConfusion h
    · simp only [Except.ok.injEq] at h
      subst h
      exact hwf
  · exact Except.noConfusion h

theorem wf_updateFeedItem {db db' : DB} {i : Nat} {s : Option String}
    {u : Option Nat} (hwf : WF db) (h : updateFeedItem db i s u = .ok db') :
    WF db' := by
  obtain ⟨h1, h2, h3⟩ := hwf
  unfold updateFeedItem at h
  split at h
  · split at h
    · exact Except.noConfusion h
    · split at h
      · simp only [Except.ok.injEq] at h
        subst h
        rename_i hfk
        refine ⟨fun f hf => ?_, fun it hit => ?_, h3⟩
        · obtain ⟨f0, hf0, rfl⟩ := List.mem_map.mp hf
          split
          · cases u with
            | none => exact h1 f0 hf0
            | some u0 => exact hfk
          · exact h1 f0 hf0
        · obtain ⟨f0, hf0, hfe⟩ := h2 it hit
          refine ⟨if f0.id = i then
              { f0 with status_text := s.getD f0.status_text,
                        user_profile := u.getD f0.user_profile } else f0,
            List.mem_map.mpr ⟨f0, hf0, rfl⟩, ?_⟩
          split <;> exact hfe
      · exact Except.noConfusion h
  · exact Except.noConfusion h

theorem wf_updateInvoiceItem {db db' : DB} {i : Nat} {q p tt : Option Int}
    {pr : Option Nat} (hwf : WF db)
    (h : updateInvoiceItem db i q p tt pr = .ok db') : WF db' := by
  obtain ⟨h1, h2, h3⟩ := hwf
  unfold updateInvoiceItem at h
  split at h
  · split at h
    · simp only [Except.ok.injEq] at h
      subst h
      rename_i hfk
      refine ⟨h1, fun it hit => ?_, h3⟩
      obtain ⟨it0, hit0, rfl⟩ := List.mem_map.mp hit
      split
      · cases pr with
        | none => exact h2 it0 hit0
        | some p0 => exact hfk
      · exact h2 it0 hit0
    · exact Except.noConfusion h
  · exact Except.noConfusion h

theorem wf_updateInvoice {db db' : DB} {i : Nat} {c : Option Nat}
    (hwf : WF db) (h : updateInvoice db i c = .ok db') : WF db' := by
  obtain ⟨h1, h2, h3⟩ := hwf
  unfold updateInvoice at h
  split at h
  · split at h
    · simp only [Except.ok.injEq] at h
      subst h
      rename_i hfk
      refine ⟨h1, h2, fun v hv => ?_⟩
      obtain ⟨v0, hv0, rfl⟩ := List.mem_map.mp hv
      split
      · cases c with
        | none => exact h3 v0 hv0
        | some c0 => exact hfk
      · exact h3 v0 hv0
    · exact Except.noConfusion h
  · exact Except.noConfusion h

theorem wf_deleteUserProfile {db db' : DB} {u : Nat}
    (hwf : WF db) (h : deleteUserProfile db u = .ok db') : WF db' := by
  obtain ⟨h1, h2, h3⟩ := hwf
  unfold deleteUserProfile at h
  split at h
  · simp only [Except.ok.injEq] at h
    subst h
    refine ⟨fun f hf => ?_, fun it hit => ?_, fun v hv => ?_⟩
    · obtain ⟨hf, hne⟩ := List.mem_filter.mp hf
      exact List.mem_filter.mpr ⟨h1 f hf, hne⟩
    · obtain ⟨hit, hkeep⟩ := List.mem_filter.mp hit
      obtain ⟨f, hfm, hfe⟩ := h2 it hit
      have hfu : f.user_profile ≠ u := by
        intro hequ
        have : db.feedItems.any (fun g => g.id == it.product && g.user_profile == u) = true :=
          List.any_eq_true.mpr ⟨f, hfm, by simp [hfe, hequ]⟩
        simp [this] at hkeep
      exact ⟨f, List.mem_filter.mpr ⟨hfm, by simpa using hfu⟩, hfe⟩
    · obtain ⟨hv, hne⟩ := List.mem_filter.mp hv
      exact List.mem_filter.mpr ⟨h3 v hv, hne⟩
  · exact Except.noConfusion h

theorem wf_deleteFeedItem {db db' : DB} {i : Nat}
    (hwf : WF db) (h : deleteFeedItem db i = .ok db') : WF db' := by
  obtain ⟨h1, h2, h3⟩ := hwf
  unfold deleteFeedItem at h
  split at h
  · simp only [Except.ok.injEq] at h
    subst h
    refine ⟨fun f hf => h1 f (List.mem_of_mem_filter hf), fun it hit => ?_, h3⟩
    obtain ⟨hit, hkeep⟩ := List.mem_filter.mp hit
    obtain ⟨f, hfm, hfe⟩ := h2 it hit
    refine ⟨f, List.mem_filter.mpr ⟨hfm, ?_⟩, hfe⟩
    simp only [bne_iff_ne] at hkeep ⊢
    exact hfe ▸ hkeep
  · exact Except.noConfusion h

theorem wf_deleteProduct {db db' : DB} {i : Nat}
    (hwf : WF db) (h : deleteProduct db i = .ok db') : WF db' := by
  unfold deleteProduct at h
  split at h
  · simp only [Except.ok.injEq] at h
    subst h
    exact hwf
  · exact Except.noConfusion h

theorem wf_deleteInvoiceItem {db db' : DB} {i : Nat}
    (hwf : WF db) (h : deleteInvoiceItem db i = .ok db') : WF db' := by
  obtain ⟨h1, h2, h3⟩ := hwf
  unfold deleteInvoiceItem at h
  split at h
  · simp only [Except.ok.injEq] at h
    subst h
    exact ⟨h1, fun it hit => h2 it (List.mem_of_mem_filter hit), h3⟩
  · exact Except.noConfusion h

theorem wf_deleteInvoice {db db' : DB} {i : Nat}
    (hwf : WF db) (h : deleteInvoice db i = .ok db') : WF db' := by
  obtain ⟨h1, h2, h3⟩ := hwf
  unfold deleteInvoice at h
  split at h
  · simp only [Except.ok.injEq] at h
    subst h
    exact ⟨h1, h2, fun v hv => h3 v (List.mem_of_mem_filter hv)⟩
  · exact Except.noConfusion h

/-- Every reachable database state satisfies referential integrity. -/
theorem reachable_wf {db : DB} (hr : Reachable db) : WF db := by
  induction hr with
  | empty => exact wf_emptyDB
  | newUserProfile db _ ih => exact wf_createUserProfile ih
  | newProduct db db' i n p q _ h ih => exact wf_createProduct ih h
  | newFeedItem db db' i s u t _ h ih => exact wf_createFeedItem ih h
  | newInvoiceItem db db' i q p tt pr _ h ih => exact wf_createInvoiceItem ih h
  | newInvoice db db' i c t _ h ih => exact wf_createInvoice ih h
  | editProduct db db' i n p q _ h ih => exact wf_updateProduct ih h
  | editFeedItem db db' i s u _ h ih => exact wf_updateFeedItem ih h
  | editInvoiceItem db db' i q p tt pr _ h ih => exact wf_updateInvoiceItem ih h
  | editInvoice db db' i c _ h ih => exact wf_updateInvoice ih h
  | dropUserProfile db db' u _ h ih => exact wf_deleteUserProfile ih h
  | dropFeedItem db db' i _ h ih => exact wf_deleteFeedItem ih h
  | dropProduct db db' i _ h ih => exact wf_deleteProduct ih h
  | dropInvoiceItem db db' i _ h ih => exact wf_deleteInvoiceItem ih h
  | dropInvoice db db' i _ h ih => exact wf_deleteInvoice ih h

/-- C1: For every InvoiceItem row, deleting the parent row referenced by its
`product` foreign key removes that InvoiceItem; per the schema this foreign
key targets the ProfileFeedItem table, not the Product table, with
cascade-delete — so the cascade fires on ProfileFeedItem deletion, while
Product deletion leaves the InvoiceItem table untouched. -/
theorem invoiceItem_cascade_on_feedItem_delete :
    (∀ db p db', deleteFeedItem db p = .ok db' →
      (∀ it ∈ db.invoiceItems, it.product = p → it ∉ db'.invoiceItems) ∧
      (∀ it ∈ db'.invoiceItems, it.product ≠ p)) ∧
    (∀ db i db', deleteProduct db i = .ok db' →
      db'.invoiceItems = db.invoiceItems) := by
  constructor
  · intro db p db' h
    unfold deleteFeedItem at h
    split at h
    · simp only [Except.ok.injEq] at h
      subst h
      constructor
      · intro it hit hp hmem
        have hk := (List.mem_filter.mp hmem).2
        simp [hp] at hk
      · intro it hit
        have hk := (List.mem_filter.mp hit).2
        simpa using hk
    · exact Except.noConfusion h
  · intro db i db' h
    unfold deleteProduct at h
    split at h
    · simp only [Except.ok.injEq] at h
      subst h
      rfl
    · exact Except.noConfusion h

/-- C1 witness: in `exDB2` the InvoiceItem 0 references ProfileFeedItem 0;
deleting that feed item removes the invoice item. -/
theorem invoiceItem_cascade_on_feedItem_delete_witness :
    (⟨0, 0, 0, 0, 0⟩ : InvoiceItemRow) ∉ exDB2fdel.invoiceItems :=
  (invoiceItem_cascade_on_feedItem_delete.1 exDB2 0 exDB2fdel rfl).1
    ⟨0, 0, 0, 0, 0⟩ (by decide) rfl

/-- C3: For every ProfileFeedItem row, deleting the UserProfile row referenced
by its `user_profile` foreign key removes that ProfileFeedItem row. -/
theorem feedItem_cascade_on_userProfile_delete :
    ∀ db u db', deleteUserProfile db u = .ok db' →
      (∀ f ∈ db.feedItems, f.user_profile = u → f ∉ db'.feedItems) ∧
      (∀ f ∈ db'.feedItems, f.user_profile ≠ u) := by
  intro db u db' h
  unfold deleteUserProfile at h
  split at h
  · simp only [Except.ok.injEq] at h
    subst h
    constructor
    · intro f hf hu hmem
      have hk := (List.mem_filter.mp hmem).2
      simp [hu] at hk
    · intro f hf
      have hk := (List.mem_filter.mp hf).2
      simpa using hk
  · exact Except.noConfusion h

/-- C3 witness: deleting UserProfile 0 from `exDB1` removes its feed item. -/
theorem feedItem_cascade_on_userProfile_delete_witness :
    (⟨0, "hi", 5, 0⟩ : FeedItemRow) ∉ exDB1del.feedItems :=
  (feedItem_cascade_on_userProfile_delete exDB1 0 exDB1del rfl).1
    ⟨0, "hi", 5, 0⟩ (by decide) rfl

/-- C4: For every Invoice row, deleting the UserProfile row referenced by its
`client` foreign key removes that Invoice row. -/
theorem invoice_cascade_on_userProfile_delete :
    ∀ db u db', deleteUserProfile db u = .ok db' →
      (∀ v ∈ db.invoices, v.client = u → v ∉ db'.invoices) ∧
      (∀ v ∈ db'.invoices, v.client ≠ u) := by
  intro db u db' h
  unfold deleteUserProfile at h
  split at h
  · simp only [Except.ok.injEq] at h
    subst h
    constructor
    · intro v hv hu hmem
      have hk := (List.mem_filter.mp hmem).2
      simp [hu] at hk
    · intro v hv
      have hk := (List.mem_filter.mp hv).2
      simpa using hk
  · exact Except.noConfusion h

/-- C4 witness: deleting UserProfile 0 from `exDB3` removes its invoice. -/
theorem invoice_cascade_on_userProfile_delete_witness :
    (⟨0, 7, 0⟩ : InvoiceRow) ∉ exDB3del.invoices :=
  (invoice_cascade_on_userProfile_delete exDB3 0 exDB3del rfl).1
    ⟨0, 7, 0⟩ (by decide) rfl

/-- C10: deleting a Product never removes or changes any InvoiceItem row (or
any other row), and deleting a row of any other type never removes a Product
row: the Product table participates in no cascade in either direction. -/
theorem product_no_cascade :
    (∀ db i db', deleteProduct db i = .ok db' →
      db'.invoiceItems = db.invoiceItems ∧ db'.feedItems = db.feedItems ∧
      db'.invoices = db.invoices ∧ db'.userProfiles = db.userProfiles) ∧
    (∀ db u db', deleteUserProfile db u = .ok db' → db'.products = db.products) ∧
    (∀ db i db', deleteFeedItem db i = .ok db' → db'.products = db.products) ∧
    (∀ db i db', deleteInvoiceItem db i = .ok db' → db'.products = db.products) ∧
    (∀ db i db', deleteInvoice db i = .ok db' → db'.products = db.products) := by
  refine ⟨?_, ?_, ?_, ?_, ?_⟩ <;> intro db i db' h
  · unfold deleteProduct at h
    split at h
    · simp only [Except.ok.injEq] at h
      subst h
      exact ⟨rfl, rfl, rfl, rfl⟩
    · exact Except.noConfusion h
  · unfold deleteUserProfile at h
    split at h
    · simp only [Except.ok.injEq] at h
      subst h
      rfl
    · exact Except.noConfusion h
  · unfold deleteFeedItem at h
    split at h
    · simp only [Except.ok.injEq] at h
      subst h
      rfl
    · exact Except.noConfusion h
  · unfold deleteInvoiceItem at h
    split at h
    · simp only [Except.ok.injEq] at h
      subst h
      rfl
    · exact Except.noConfusion h
  · unfold deleteInvoice at h
    split at h
    · simp only [Except.ok.injEq] at h
      subst h
      rfl
    · exact Except.noConfusion h

/-- C10 witness: deleting Product 0 from `dbP1` leaves the InvoiceItem table
unchanged, and the cascading delete of UserProfile 0 from `exDB3` leaves the
Product table unchanged. -/
theorem product_no_cascade_witness :
    dbP1del.invoiceItems = dbP1.invoiceItems ∧
    exDB3del.products = exDB3.products :=
  ⟨(product_no_cascade.1 dbP1 0 dbP1del rfl).1,
   product_no_cascade.2.1 exDB3 0 exDB3del rfl⟩

/-- C8: creating a Product, InvoiceItem or Invoice takes no `id` argument (the
primary key is auto-assigned from the table's sequence), and two successive
creates of the same entity type yield strictly increasing ids. -/
theorem ids_auto_increasing :
    (∀ db n p q db1 i1 n2 p2 q2 db2 i2,
      createProduct db n p q = .ok (db1, i1) →
      createProduct db1 n2 p2 q2 = .ok (db2, i2) → i1 < i2) ∧
    (∀ db q p tt pr db1 i1 q2 p2 tt2 pr2 db2 i2,
      createInvoiceItem db q p tt pr = .ok (db1, i1) →
      createInvoiceItem db1 q2 p2 tt2 pr2 = .ok (db2, i2) → i1 < i2) ∧
    (∀ db c t db1 i1 c2 t2 db2 i2,
      createInvoice db c t = .ok (db1, i1) →
      createInvoice db1 c2 t2 = .ok (db2, i2) → i1 < i2) := by
  refine ⟨?_, ?_, ?_⟩
  · intro db n p q db1 i1 n2 p2 q2 db2 i2 h1 h2
    unfold createProduct at h1 h2
    split at h1
    · exact Except.noConfusion h1
    · simp only [Except.ok.injEq, Prod.mk.injEq] at h1
      obtain ⟨rfl, rfl⟩ := h1
      split at h2
      · exact Except.noConfusion h2
      · simp only [Except.ok.injEq, Prod.mk.injEq] at h2
        obtain ⟨rfl, rfl⟩ := h2
        exact Nat.lt_succ_self _
  · intro db q p tt pr db1 i1 q2 p2 tt2 pr2 db2 i2 h1 h2
    unfold createInvoiceItem at h1 h2
    split at h1
    · simp only [Except.ok.injEq, Prod.mk.injEq] at h1
      obtain ⟨rfl, rfl⟩ := h1
      split at h2
      · simp only [Except.ok.injEq, Prod.mk.injEq] at h2
        obtain ⟨rfl, rfl⟩ := h2
        exact Nat.lt_succ_self _
      · exact Except.noConfusion h2
    · exact Except.noConfusion h1
  · intro db c t db1 i1 c2 t2 db2 i2 h1 h2
    unfold createInvoice at h1 h2
    split at h1
    · simp only [Except.ok.injEq, Prod.mk.injEq] at h1
      obtain ⟨rfl, rfl⟩ := h1
      split at h2
      · simp only [Except.ok.injEq, Prod.mk.injEq] at h2
        obtain ⟨rfl, rfl⟩ := h2
        exact Nat.lt_succ_self _
      · exact Except.noConfusion h2
    · exact Except.noConfusion h1

/-- C8 witness: two successive Product creates from the empty database are
assigned ids 0 and 1. -/
theorem ids_auto_increasing_witness :
    createProduct emptyDB "a" none none = .ok (dbP1, 0) ∧
    createProduct dbP1 "b" none none = .ok (dbP2, 1) ∧ (0 : Nat) < 1 :=
  ⟨rfl, rfl,
   ids_auto_increasing.1 emptyDB "a" none none dbP1 0 "b" none none dbP2 1 rfl rfl⟩

/-- C9: a Product created without `price`/`quantity` gets price = 0 and
quantity = 0, and an InvoiceItem created without `quantity`/`price`/`total`
gets all three equal to 0 (the declared defaults). -/
theorem defaults_zero :
    (∀ db n db' i, createProduct db n none none = .ok (db', i) →
      db'.products = db.products ++ [⟨i, n, 0, 0⟩]) ∧
    (∀ db pr db' i, createInvoiceItem db none none none pr = .ok (db', i) →
      db'.invoiceItems = db.invoiceItems ++ [⟨i, 0, 0, 0, pr⟩]) := by
  constructor
  · intro db n db' i h
    unfold createProduct at h
    split at h
    · exact Except.noConfusion h
    · simp only [Except.ok.injEq, Prod.mk.injEq] at h
      obtain ⟨rfl, rfl⟩ := h
      rfl
  · intro db pr db' i h
    unfold createInvoiceItem at h
    split at h
    · simp only [Except.ok.injEq, Prod.mk.injEq] at h
      obtain ⟨rfl, rfl⟩ := h
      rfl
    · exact Except.noConfusion h

/-- C9 witness: the Product created in `dbP1` and the InvoiceItem created in
`exDB2` carry the default value 0 in every unspecified numeric field. -/
theorem defaults_zero_witness :
    dbP1.products = emptyDB.products ++ [⟨0, "a", 0, 0⟩] ∧
    exDB2.invoiceItems = exDB1.invoiceItems ++ [⟨0, 0, 0, 0, 0⟩] :=
  ⟨defaults_zero.1 emptyDB "a" dbP1 0 rfl,
   defaults_zero.2 exDB1 0 exDB2 0 rfl⟩

/-- C6: creating a ProfileFeedItem whose `status_text` exceeds 255 characters
fails with ValidationError, and with at most 255 characters the creation never
fails with ValidationError (the declared max_length is 255). -/
theorem status_text_validation :
    ∀ db s u t,
      (255 < s.length → createFeedItem db s u t = .error .validationError) ∧
      (s.length ≤ 255 → createFeedItem db s u t ≠ .error .validationError) := by
  intro db s u t
  constructor
  · intro hl
    unfold createFeedItem
    rw [if_pos hl]
  · intro hl h
    unfold createFeedItem at h
    split at h
    · rename_i hc
      omega
    · split at h
      · exact Except.noConfusion h
      · exact DbError.noConfusion (Except.error.inj h)

set_option maxRecDepth 4096 in
/-- C6 witness: a 256-character status text is rejected with ValidationError,
and a 2-character one is never rejected with ValidationError. -/
theorem status_text_validation_witness :
    255 < longText.length ∧
    createFeedItem emptyDB longText 0 0 = .error .validationError ∧
    ("hi".length ≤ 255 ∧
      createFeedItem emptyDB "hi" 0 0 ≠ .error .validationError) :=
  ⟨by decide, (status_text_validation emptyDB longText 0 0).1 (by decide),
   by decide, (status_text_validation emptyDB "hi" 0 0).2 (by decide)⟩

set_option maxRecDepth 4096 in
/-- C5 counterexample: a record whose `status_text` is over-length and whose
foreign key is dangling fails with ValidationError, not ConstraintError, so
"fails with ConstraintError if and only if the foreign key references a
nonexistent row" is false as stated. -/
theorem create_constraint_iff_counterexample :
    (0 : UserProfileId) ∉ emptyDB.userProfiles ∧
    createFeedItem emptyDB longText 0 0 ≠ Except.error DbError.constraintError := by
  refine ⟨by decide, fun h => ?_⟩
  have hv : createFeedItem emptyDB longText 0 0 = .error .validationError := by
    unfold createFeedItem
    rw [if_pos (by decide)]
  exact DbError.noConfusion (Except.error.inj (hv.symm.trans h))

/-- C5 (amended): for records that pass field validation, Create fails with
ConstraintError if and only if the record's foreign key references a row that
does not exist; on success the new row's foreign key references an existing
row; Product creation (no foreign key) never fails with ConstraintError. -/
theorem create_constraint_error_characterisation :
    (∀ db s u t, s.length ≤ 255 →
      ((createFeedItem db s u t = .error .constraintError ↔
          u ∉ db.userProfiles) ∧
        (∀ db' i, createFeedItem db s u t = .ok (db', i) →
          u ∈ db'.userProfiles))) ∧
    (∀ db q p tt pr,
      (createInvoiceItem db q p tt pr = .error .constraintError ↔
        ¬ ∃ f ∈ db.feedItems, f.id = pr) ∧
      (∀ db' i, createInvoiceItem db q p tt pr = .ok (db', i) →
        ∃ f ∈ db'.feedItems, f.id = pr)) ∧
    (∀ db c t,
      (createInvoice db c t = .error .constraintError ↔ c ∉ db.userProfiles) ∧
      (∀ db' i, createInvoice db c t = .ok (db', i) → c ∈ db'.userProfiles)) ∧
    (∀ db n p q, createProduct db n p q ≠ .error .constraintError) := by
  refine ⟨?_, ?_, ?_, ?_⟩
  · intro db s u t hs
    constructor
    · unfold createFeedItem
      rw [if_neg (by omega)]
      split
      · rename_i hu
        exact ⟨fun h => Except.noConfusion h, fun h => absurd hu h⟩
      · rename_i hu
        exact ⟨fun _ => hu, fun _ => rfl⟩
    · intro db' i h
      unfold createFeedItem at h
      split at h
      · exact Except.noConfusion h
      · split at h
        · rename_i hu
          simp only [Except.ok.injEq, Prod.mk.injEq] at h
          obtain ⟨rfl, rfl⟩ := h
          exact hu
        · exact Except.noConfusion h
  · intro db q p tt pr
    constructor
    · unfold createInvoiceItem
      split
      · rename_i hex
        exact ⟨fun h => Except.noConfusion h, fun h => absurd hex h⟩
      · rename_i hex
        exact ⟨fun _ => hex, fun _ => rfl⟩
    · intro db' i h
      unfold createInvoiceItem at h
      split at h
      · rename_i hex
        simp only [Except.ok.injEq, Prod.mk.injEq] at h
        obtain ⟨rfl, rfl⟩ := h
        exact hex
      · exact Except.noConfusion h
  · intro db c t
    constructor
    · unfold createInvoice
      split
      · rename_i hc
        exact ⟨fun h => Except.noConfusion h, fun h => absurd hc h⟩
      · rename_i hc
        exact ⟨fun _ => hc, fun _ => rfl⟩
    · intro db' i h
      unfold createInvoice at h
      split at h
      · rename_i hc
        simp only [Except.ok.injEq, Prod.mk.injEq] at h
        obtain ⟨rfl, rfl⟩ := h
        exact hc
      · exact Except.noConfusion h
  · intro db n p q h
    unfold createProduct at h
    split at h
    · exact DbError.noConfusion (Except.error.inj h)
    · exact Except.noConfusion h

/-- C5 witness: with a valid short text, creating a feed item for the absent
UserProfile 1 fails with ConstraintError, and the successful creation of feed
item 0 in `exDB1` references the existing UserProfile 0. -/
theorem create_constraint_error_characterisation_witness :
    createFeedItem emptyDB "hi" 1 0 = Except.error DbError.constraintError ∧
    (0 : UserProfileId) ∈ exDB1.userProfiles :=
  ⟨((create_constraint_error_characterisation.1 emptyDB "hi" 1 0
      (by decide)).1).mpr (by decide),
   (create_constraint_error_characterisation.1 exDB0 "hi" 0 5
      (by decide)).2 exDB1 0 rfl⟩

/-- C7: `created_on` (ProfileFeedItem) and `date` (Invoice) are assigned
exactly once, at creation time, from the creation clock, and every subsequent
Update leaves the (id, timestamp) association of every row unchanged. -/
theorem timestamps_immutable :
    (∀ db i s u db', updateFeedItem db i s u = .ok db' →
      db'.feedItems.map (fun f => (f.id, f.created_on)) =
        db.feedItems.map fun f => (f.id, f.created_on)) ∧
    (∀ db i c db', updateInvoice db i c = .ok db' →
      db'.invoices.map (fun v => (v.id, v.date)) =
        db.invoices.map fun v => (v.id, v.date)) ∧
    (∀ db s u t db' i, createFeedItem db s u t = .ok (db', i) →
      db'.feedItems = db.feedItems ++ [⟨i, s, t, u⟩]) ∧
    (∀ db c t db' i, createInvoice db c t = .ok (db', i) →
      db'.invoices = db.invoices ++ [⟨i, t, c⟩]) := by
  refine ⟨?_, ?_, ?_, ?_⟩
  · intro db i s u db' h
    unfold updateFeedItem at h
    split at h
    · split at h
      · exact Except.noConfusion h
      · split at h
        · simp only [Except.ok.injEq] at h
          subst h
          rw [List.map_map]
          refine List.map_congr_left ?_
          intro f0 hf0
          simp only [Function.comp_apply]
          split <;> rfl
        · exact Except.noConfusion h
    · exact Except.noConfusion h
  · intro db i c db' h
    unfold updateInvoice at h
    split at h
    · split at h
      · simp only [Except.ok.injEq] at h
        subst h
        rw [List.map_map]
        refine List.map_congr_left ?_
        intro v0 hv0
        simp only [Function.comp_apply]
        split <;> rfl
      · exact Except.noConfusion h
    · exact Except.noConfusion h
  · intro db s u t db' i h
    unfold createFeedItem at h
    split at h
    · exact Except.noConfusion h
    · split at h
      · simp only [Except.ok.injEq, Prod.mk.injEq] at h
        obtain ⟨rfl, rfl⟩ := h
        rfl
      · exact Except.noConfusion h
  · intro db c t db' i h
    unfold createInvoice at h
    split at h
    · simp only [Except.ok.injEq, Prod.mk.injEq] at h
      obtain ⟨rfl, rfl⟩ := h
      rfl
    · exact Except.noConfusion h

/-- C7 witness: updating feed item 0's `status_text` in `exDB1` leaves its
`created_on` (set to 5 when it was created) unchanged. -/
theorem timestamps_immutable_witness :
    exDB1up.feedItems.map (fun f => (f.id, f.created_on)) =
      exDB1.feedItems.map (fun f => (f.id, f.created_on)) ∧
    exDB1.feedItems = exDB0.feedItems ++ [⟨0, "hi", 5, 0⟩] :=
  ⟨timestamps_immutable.1 exDB1 0 (some "yo") none exDB1up rfl,
   timestamps_immutable.2.2.1 exDB0 "hi" 0 5 exDB1 0 rfl⟩

/-- C2: on every reachable database state, deleting a UserProfile removes all
ProfileFeedItem rows referencing it and, transitively, all InvoiceItem rows
whose `product` foreign key references any of those feed items; afterwards no
row references a nonexistent row (the state is again well-formed). -/
theorem userProfile_delete_cascades_transitively :
    ∀ db u db', Reachable db → deleteUserProfile db u = .ok db' →
      (∀ f ∈ db.feedItems, f.user_profile = u → f ∉ db'.feedItems) ∧
      (∀ it ∈ db.invoiceItems,
        (∃ f ∈ db.feedItems, f.id = it.product ∧ f.user_profile = u) →
          it ∉ db'.invoiceItems) ∧
      WF db' := by
  intro db u db' hr h
  have hwf' : WF db' := wf_deleteUserProfile (reachable_wf hr) h
  unfold deleteUserProfile at h
  split at h
  · simp only [Except.ok.injEq] at h
    subst h
    refine ⟨?_, ?_, hwf'⟩
    · intro f hf hu hmem
      have hk := (List.mem_filter.mp hmem).2
      simp [hu] at hk
    · intro it hit hex hmem
      obtain ⟨f, hfm, hfe, hfu⟩ := hex
      have hk := (List.mem_filter.mp hmem).2
      have ha : db.feedItems.any
          (fun g => g.id == it.product && g.user_profile == u) = true :=
        List.any_eq_true.mpr ⟨f, hfm, by simp [hfe, hfu]⟩
      simp [ha] at hk
  · exact Except.noConfusion h

/-- C2 witness: `exDB3` is reachable from the empty database; deleting
UserProfile 0 removes feed item 0 and, transitively, invoice item 0, and the
resulting state is well-formed. -/
theorem userProfile_delete_cascades_transitively_witness :
    (⟨0, "hi", 5, 0⟩ : FeedItemRow) ∉ exDB3del.feedItems ∧
    (⟨0, 0, 0, 0, 0⟩ : InvoiceItemRow) ∉ exDB3del.invoiceItems ∧
    WF exDB3del := by
  have e0 : (createUserProfile emptyDB).1 = exDB0 := by decide
  have hr0 : Reachable exDB0 := e0 ▸ Reachable.newUserProfile emptyDB Reachable.empty
  have hr1 : Reachable exDB1 :=
    Reachable.newFeedItem exDB0 exDB1 0 "hi" 0 5 hr0 rfl
  have hr2 : Reachable exDB2 :=
    Reachable.newInvoiceItem exDB1 exDB2 0 none none none 0 hr1 rfl
  have hr3 : Reachable exDB3 :=
    Reachable.newInvoice exDB2 exDB3 0 0 7 hr2 rfl
  have h := userProfile_delete_cascades_transitively exDB3 0 exDB3del hr3 rfl
  exact ⟨h.1 ⟨0, "hi", 5, 0⟩ (by decide) rfl,
         h.2.1 ⟨0, 0, 0, 0, 0⟩ (by decide) ⟨⟨0, "hi", 5, 0⟩, by decide, rfl, rfl⟩,
         h.2.2⟩
